import Mathlib

/-!
Verification of the rPGP-Working-Examples repository: three short Python
scripts (`pgp_encrypter.py`, `pgp_encoder.py`, `keys_from_files/pgp_decrypter.py`)
that call the third-party `pgpy` OpenPGP library to encrypt or decrypt a
message using key files loaded from disk.

The `pgpy` library is not part of the repository; the spec treats it as an
external collaborator with a four-operation interface (loadKey, loadMessage,
encrypt, decrypt) and an error taxonomy.  We model that interface abstractly
(`PGPLib`), embed each script's `main` as a function from a library model and
a filesystem to a run result carrying the outcome (stdout lines or the raised
error), the trace of operations performed, and the final filesystem.
-/

/-- Errors raised by the OpenPGP library, using the names of the spec's
error taxonomy, plus the host error for a missing file. -/
inductive PGPError where
  | keyFormat
  | messageFormat
  | encryption
  | decryption
  | wrongKey
  | passphrase
  | fileNotFound
  deriving DecidableEq, Repr

/-- Modelled from the spec: a parsed OpenPGP key handle (`KeyHandle`).  The
pgpy key object is opaque to the scripts; the only attributes the spec's
interface depends on are its identity (which ciphertexts it matches) and
whether it carries an encryption-capable subkey. -/
structure PGPKey where
  keyId : Nat
  hasEncryptionSubkey : Bool
  deriving DecidableEq, Repr

/-- Modelled from the spec: a PGP message handle (`MessageHandle`).  `message`
is the payload exposed by pgpy's `.message` attribute; `recipient` is the key
id the session key is locked to (`none` for a literal, unencrypted message). -/
structure PGPMessage where
  message : String
  recipient : Option Nat
  deriving DecidableEq, Repr

/-- pgpy's `PGPMessage.new`: wrap a literal string as an unencrypted message. -/
def PGPMessage.new (s : String) : PGPMessage :=
  { message := s, recipient := none }

/-- Modelled from the spec: pgpy's `pubkey.encrypt(message)`.  Fails with
`EncryptionError` if the key lacks an encryption-capable subkey; otherwise
returns the message locked to the key. -/
def PGPKey.encrypt (k : PGPKey) (m : PGPMessage) : Except PGPError PGPMessage :=
  if k.hasEncryptionSubkey then
    .ok { message := m.message, recipient := some k.keyId }
  else
    .error .encryption

/-- Whether a key can decrypt the session key of a message: the message is
locked to this key's id. -/
def keyMatches (k : PGPKey) (m : PGPMessage) : Bool :=
  m.recipient == some k.keyId

/-- Modelled from the spec: pgpy's `privkey.decrypt(message)`.  Fails with
`DecryptionError` if the key does not match the message; otherwise returns
the unlocked message carrying the plaintext. -/
def PGPKey.decrypt (k : PGPKey) (m : PGPMessage) : Except PGPError PGPMessage :=
  if keyMatches k m then
    .ok { message := m.message, recipient := none }
  else
    .error .decryption

/-- Modelled from the spec: the parsing and armoring front end of the pgpy
library, abstract in the model.  `parseKey` parses a key file's content into
a key plus the remaining keys of the file (pgpy's `PGPKey.from_file` returns
a pair whose second component the scripts discard); `parseMessage` parses an
armored ciphertext; `render` is the armored textual form of a message
(`str(...)` in Python).  `none` from a parser means the content is malformed. -/
structure PGPLib where
  parseKey : String → Option (PGPKey × List PGPKey)
  parseMessage : String → Option PGPMessage
  render : PGPMessage → String

/-- A filesystem: an association list from path to file content; the most
recent write for a path comes first. -/
abbrev FS := List (String × String)

/-- Read the content of a file, `none` if the path does not exist. -/
def fsRead (fs : FS) (p : String) : Option String :=
  (fs.find? (fun e => e.1 == p)).map (fun e => e.2)

/-- Write (create or truncate-and-replace) a file. -/
def fsWrite (fs : FS) (p c : String) : FS :=
  (p, c) :: fs

/-- pgpy's `PGPKey.from_file` lifted over the filesystem: read the file and
parse it, failing with `KeyFormatError` on malformed content. -/
def PGPLib.keyFromFile (L : PGPLib) (fs : FS) (path : String) :
    Except PGPError (PGPKey × List PGPKey) :=
  match fsRead fs path with
  | none => .error .fileNotFound
  | some c =>
    match L.parseKey c with
    | none => .error .keyFormat
    | some kr => .ok kr

/-- pgpy's `PGPMessage.from_file` lifted over the filesystem: read the file
and parse it, failing with `MessageFormatError` on malformed content. -/
def PGPLib.messageFromFile (L : PGPLib) (fs : FS) (path : String) :
    Except PGPError PGPMessage :=
  match fsRead fs path with
  | none => .error .fileNotFound
  | some c =>
    match L.parseMessage c with
    | none => .error .messageFormat
    | some m => .ok m

/-- An observable step of a script run.  The first five constructors are calls
into the pgpy library; the last two are host I/O (stdout and file write). -/
inductive Event where
  | loadKey (path : String)
  | loadMessage (path : String)
  | newMessage (text : String)
  | encryptOp
  | decryptOp
  | printOut (text : String)
  | writeFile (path : String) (content : String)
  deriving DecidableEq, Repr

/-- The result of one run of a script: the outcome (stdout lines on success,
the uncaught exception on failure), the trace of steps performed before the
run ended, and the final filesystem. -/
structure RunResult where
  outcome : Except PGPError (List String)
  trace : List Event
  fs : FS
  deriving Repr

/-- Module-level `pgp_msg_file = "p1_armored_message.txt"` of
`src/keys_from_files/pgp_decrypter.py` (line 5). -/
def decrypter_pgp_msg_file : String := "p1_armored_message.txt"

/-- Module-level `pgp_msg_file = "p1_armored_message.txt"` of
`src/pgp_encoder.py` (line 16; the `"ep.pgp"` assignment on line 17 is
commented out). -/
def encoder_pgp_msg_file : String := "p1_armored_message.txt"

/-- The secret-key path used by both decrypting scripts. -/
def person_two_sec_key_file : String := "./key_files/person_two/sec.asc"

/-- `main` of `src/keys_from_files/pgp_decrypter.py` (lines 8-12):
load the private key (discarding the second component of `from_file`),
load the armored message, decrypt it and print the `.message` payload.
An exception at any step aborts the run there. -/
def pgp_decrypter_main (L : PGPLib) (fs : FS) : RunResult :=
  match L.keyFromFile fs person_two_sec_key_file with
  | .error e => ⟨.error e, [.loadKey person_two_sec_key_file], fs⟩
  | .ok (privkey, _) =>
    match L.messageFromFile fs decrypter_pgp_msg_file with
    | .error e =>
      ⟨.error e,
       [.loadKey person_two_sec_key_file, .loadMessage decrypter_pgp_msg_file], fs⟩
    | .ok crypt_msg =>
      match privkey.decrypt crypt_msg with
      | .error e =>
        ⟨.error e,
         [.loadKey person_two_sec_key_file, .loadMessage decrypter_pgp_msg_file,
          .decryptOp], fs⟩
      | .ok m =>
        ⟨.ok [m.message],
         [.loadKey person_two_sec_key_file, .loadMessage decrypter_pgp_msg_file,
          .decryptOp, .printOut m.message], fs⟩

/-- `main` of `src/pgp_encoder.py` (lines 19-23): identical body to the
decrypter's `main`, using the module's own `pgp_msg_file`.  The commented-out
`get_token_from_payload` workflow (lines 5-14, 28-30) is not code and does
not appear. -/
def pgp_encoder_main (L : PGPLib) (fs : FS) : RunResult :=
  match L.keyFromFile fs person_two_sec_key_file with
  | .error e => ⟨.error e, [.loadKey person_two_sec_key_file], fs⟩
  | .ok (privkey, _) =>
    match L.messageFromFile fs encoder_pgp_msg_file with
    | .error e =>
      ⟨.error e,
       [.loadKey person_two_sec_key_file, .loadMessage encoder_pgp_msg_file], fs⟩
    | .ok crypt_msg =>
      match privkey.decrypt crypt_msg with
      | .error e =>
        ⟨.error e,
         [.loadKey person_two_sec_key_file, .loadMessage encoder_pgp_msg_file,
          .decryptOp], fs⟩
      | .ok m =>
        ⟨.ok [m.message],
         [.loadKey person_two_sec_key_file, .loadMessage encoder_pgp_msg_file,
          .decryptOp, .printOut m.message], fs⟩

/-- Local `encrypted_msg_file` of `src/pgp_encrypter.py` (line 5). -/
def encrypted_msg_file : String := "encrypted_message.txt"

/-- Local `public_key_file` of `src/pgp_encrypter.py` (line 6). -/
def public_key_file : String := "./key_files/pub.asc"

/-- Local `secret_msg` of `src/pgp_encrypter.py` (line 7). -/
def secret_msg : String := "Secret message from python encoder script"

/-- `main` of `src/pgp_encrypter.py` (lines 4-12): load the public key
(discarding the second component), wrap the literal `secret_msg` as a
message, encrypt it, and `print` the armored result into the freshly opened
file `encrypted_message.txt` (Python's `print` appends a newline). -/
def pgp_encrypter_main (L : PGPLib) (fs : FS) : RunResult :=
  match L.keyFromFile fs public_key_file with
  | .error e => ⟨.error e, [.loadKey public_key_file], fs⟩
  | .ok (pubkey, _) =>
    let message := PGPMessage.new secret_msg
    match pubkey.encrypt message with
    | .error e =>
      ⟨.error e, [.loadKey public_key_file, .newMessage secret_msg, .encryptOp], fs⟩
    | .ok armored_msg =>
      ⟨.ok [],
       [.loadKey public_key_file, .newMessage secret_msg, .encryptOp,
        .writeFile encrypted_msg_file (L.render armored_msg ++ "\n")],
       fsWrite fs encrypted_msg_file (L.render armored_msg ++ "\n")⟩

/-- Is an event a call into the pgpy library (as opposed to host I/O)? -/
def isLibCall : Event → Bool
  | .loadKey _ => true
  | .loadMessage _ => true
  | .newMessage _ => true
  | .encryptOp => true
  | .decryptOp => true
  | .printOut _ => false
  | .writeFile _ _ => false

/-- Is an event a key load? -/
def isKeyLoad : Event → Bool
  | .loadKey _ => true
  | _ => false

/-- Is an event a message acquisition (load from file or wrap a literal)? -/
def isMsgAcquire : Event → Bool
  | .loadMessage _ => true
  | .newMessage _ => true
  | _ => false

/-- Is an event a cryptographic operation (encrypt or decrypt)? -/
def isCryptOp : Event → Bool
  | .encryptOp => true
  | .decryptOp => true
  | _ => false

/-- Is an event an output step (print to stdout or write a file)? -/
def isOutput : Event → Bool
  | .printOut _ => true
  | .writeFile _ _ => true
  | _ => false

/- Concrete demonstration instances, used by the witnesses below. -/

/-- A demonstration key that matches `demoMsg` and can encrypt. -/
def demoKey : PGPKey := { keyId := 7, hasEncryptionSubkey := true }

/-- A demonstration key lacking an encryption-capable subkey. -/
def demoNoEncKey : PGPKey := { keyId := 9, hasEncryptionSubkey := false }

/-- A demonstration ciphertext locked to `demoKey`. -/
def demoMsg : PGPMessage := { message := "hello", recipient := some 7 }

/-- A demonstration ciphertext locked to a different key than `demoKey`. -/
def demoWrongMsg : PGPMessage := { message := "hello", recipient := some 8 }

/-- A demonstration library model: `"KEY"` parses to `demoKey`, `"MSG"` to
`demoMsg`, `"WRONGMSG"` to `demoWrongMsg`; all other contents are malformed. -/
def demoLib : PGPLib :=
  { parseKey := fun c => if c = "KEY" then some (demoKey, []) else none
    parseMessage := fun c =>
      if c = "MSG" then some demoMsg
      else if c = "WRONGMSG" then some demoWrongMsg
      else none
    render := fun m => "ARMORED:" ++ m.message }

/-- Like `demoLib` but every key file parses to the no-encryption key. -/
def demoNoEncLib : PGPLib :=
  { parseKey := fun c => if c = "KEY" then some (demoNoEncKey, []) else none
    parseMessage := demoLib.parseMessage
    render := demoLib.render }

/-- A demonstration filesystem on which all three scripts succeed. -/
def demoFS : FS :=
  [(person_two_sec_key_file, "KEY"), (decrypter_pgp_msg_file, "MSG"),
   (public_key_file, "KEY")]

/-- A demonstration filesystem whose message is locked to the wrong key. -/
def demoWrongFS : FS :=
  [(person_two_sec_key_file, "KEY"), (decrypter_pgp_msg_file, "WRONGMSG")]

/-- A demonstration filesystem whose key file is malformed. -/
def demoBadKeyFS : FS :=
  [(person_two_sec_key_file, "garbage"), (decrypter_pgp_msg_file, "MSG")]

/-- A demonstration filesystem whose message file is malformed. -/
def demoBadMsgFS : FS :=
  [(person_two_sec_key_file, "KEY"), (decrypter_pgp_msg_file, "garbage")]

/-- A filesystem that agrees with `demoFS` on every path the scripts read but
holds an extra unrelated file. -/
def demoFS2 : FS := demoFS ++ [("unrelated.txt", "zzz")]

/-- Like `demoLib` but `parseKey` returns a different second component (the
part of pgpy's `from_file` result the scripts discard). -/
def demoLibAux : PGPLib :=
  { parseKey := fun c => if c = "KEY" then some (demoKey, [demoNoEncKey]) else none
    parseMessage := demoLib.parseMessage
    render := demoLib.render }

/- Helper lemmas shared by the claim theorems. -/

theorem fsRead_fsWrite_self (fs : FS) (p c : String) :
    fsRead (fsWrite fs p c) p = some c := by
  simp [fsRead, fsWrite, List.find?]

theorem fsRead_fsWrite_other (fs : FS) (p q c : String) (h : q ≠ p) :
    fsRead (fsWrite fs p c) q = fsRead fs q := by
  simp only [fsRead, fsWrite, List.find?]
  have : (p == q) = false := by
    exact beq_eq_false_iff_ne.mpr (fun hpq => h hpq.symm)
  simp [this]

theorem keyFromFile_ext (L : PGPLib) (fs fs' : FS) (p : String)
    (h : fsRead fs p = fsRead fs' p) :
    L.keyFromFile fs p = L.keyFromFile fs' p := by
  simp [PGPLib.keyFromFile, h]

theorem messageFromFile_ext (L : PGPLib) (fs fs' : FS) (p : String)
    (h : fsRead fs p = fsRead fs' p) :
    L.messageFromFile fs p = L.messageFromFile fs' p := by
  simp [PGPLib.messageFromFile, h]

theorem encoder_main_eq_decrypter_main_aux (L : PGPLib) (fs : FS) :
    pgp_encoder_main L fs = pgp_decrypter_main L fs := rfl

/-- Success-shape lemma for the decrypter's `main`: a successful run pins
down every component of the run result. -/
theorem pgp_decrypter_main_ok (L : PGPLib) (fs : FS) (out : List String)
    (h : (pgp_decrypter_main L fs).outcome = .ok out) :
    ∃ k aux m,
      L.keyFromFile fs person_two_sec_key_file = .ok (k, aux) ∧
      L.messageFromFile fs decrypter_pgp_msg_file = .ok m ∧
      keyMatches k m = true ∧
      out = [m.message] ∧
      pgp_decrypter_main L fs =
        ⟨.ok [m.message],
         [.loadKey person_two_sec_key_file, .loadMessage decrypter_pgp_msg_file,
          .decryptOp, .printOut m.message], fs⟩ := by
  cases hk : L.keyFromFile fs person_two_sec_key_file with
  | error e => simp [pgp_decrypter_main, hk] at h
  | ok kr =>
    obtain ⟨k, aux⟩ := kr
    cases hm : L.messageFromFile fs decrypter_pgp_msg_file with
    | error e => simp [pgp_decrypter_main, hk, hm] at h
    | ok cm =>
      cases hd : keyMatches k cm with
      | false =>
        have : k.decrypt cm = .error .decryption := by
          simp [PGPKey.decrypt, hd]
        simp [pgp_decrypter_main, hk, hm, this] at h
      | true =>
        have hdec : k.decrypt cm = .ok { message := cm.message, recipient := none } := by
          simp [PGPKey.decrypt, hd]
        refine ⟨k, aux, cm, rfl, rfl, hd, ?_, ?_⟩
        · have := h
          simp [pgp_decrypter_main, hk, hm, hdec] at this
          exact this.symm
        · simp [pgp_decrypter_main, hk, hm, hdec]

/-- Success-shape lemma for the encrypter's `main`. -/
theorem pgp_encrypter_main_ok (L : PGPLib) (fs : FS) (out : List String)
    (h : (pgp_encrypter_main L fs).outcome = .ok out) :
    ∃ k aux,
      L.keyFromFile fs public_key_file = .ok (k, aux) ∧
      k.hasEncryptionSubkey = true ∧
      out = [] ∧
      pgp_encrypter_main L fs =
        ⟨.ok [],
         [.loadKey public_key_file, .newMessage secret_msg, .encryptOp,
          .writeFile encrypted_msg_file
            (L.render { message := secret_msg, recipient := some k.keyId } ++ "\n")],
         fsWrite fs encrypted_msg_file
           (L.render { message := secret_msg, recipient := some k.keyId } ++ "\n")⟩ := by
  cases hk : L.keyFromFile fs public_key_file with
  | error e => simp [pgp_encrypter_main, hk] at h
  | ok kr =>
    obtain ⟨k, aux⟩ := kr
    cases he : k.hasEncryptionSubkey with
    | false =>
      have : k.encrypt (PGPMessage.new secret_msg) = .error .encryption := by
        simp [PGPKey.encrypt, he]
      simp [pgp_encrypter_main, hk, this] at h
    | true =>
      have henc : k.encrypt (PGPMessage.new secret_msg) =
          .ok { message := secret_msg, recipient := some k.keyId } := by
        simp [PGPKey.encrypt, he, PGPMessage.new]
      refine ⟨k, aux, rfl, he, ?_, ?_⟩
      · have := h
        simp [pgp_encrypter_main, hk, henc] at this
        exact this
      · simp [pgp_encrypter_main, hk, henc]

/- Claim theorems. -/

/-- Claim C1: in every (successful) run of each of the three scripts, `main`
loads exactly one key from an armored key file, acquires exactly one message
(a literal string for the encrypter, an armored ciphertext file for the two
decrypters), performs exactly one encrypt or decrypt operation, and produces
exactly one output (a print for the decrypters, a file write for the
encrypter). -/
theorem scripts_one_key_one_message_one_op_one_output
    (L : PGPLib) (fs : FS) (out : List String) :
    ((pgp_decrypter_main L fs).outcome = .ok out →
      (pgp_decrypter_main L fs).trace.filter isKeyLoad =
        [.loadKey person_two_sec_key_file] ∧
      (pgp_decrypter_main L fs).trace.filter isMsgAcquire =
        [.loadMessage decrypter_pgp_msg_file] ∧
      (pgp_decrypter_main L fs).trace.filter isCryptOp = [.decryptOp] ∧
      (∃ m, (pgp_decrypter_main L fs).trace.filter isOutput = [.printOut m])) ∧
    ((pgp_encoder_main L fs).outcome = .ok out →
      (pgp_encoder_main L fs).trace.filter isKeyLoad =
        [.loadKey person_two_sec_key_file] ∧
      (pgp_encoder_main L fs).trace.filter isMsgAcquire =
        [.loadMessage encoder_pgp_msg_file] ∧
      (pgp_encoder_main L fs).trace.filter isCryptOp = [.decryptOp] ∧
      (∃ m, (pgp_encoder_main L fs).trace.filter isOutput = [.printOut m])) ∧
    ((pgp_encrypter_main L fs).outcome = .ok out →
      (pgp_encrypter_main L fs).trace.filter isKeyLoad =
        [.loadKey public_key_file] ∧
      (pgp_encrypter_main L fs).trace.filter isMsgAcquire =
        [.newMessage secret_msg] ∧
      (pgp_encrypter_main L fs).trace.filter isCryptOp = [.encryptOp] ∧
      (∃ c, (pgp_encrypter_main L fs).trace.filter isOutput =
        [.writeFile encrypted_msg_file c])) := by
  refine ⟨?_, ?_, ?_⟩
  · intro h
    obtain ⟨k, aux, m, hk, hm, hmatch, hout, hshape⟩ := pgp_decrypter_main_ok L fs out h
    rw [hshape]
    refine ⟨?_, ?_, ?_, ⟨m.message, ?_⟩⟩ <;>
      simp [isKeyLoad, isMsgAcquire, isCryptOp, isOutput, List.filter]
  · intro h
    rw [encoder_main_eq_decrypter_main_aux] at h
    obtain ⟨k, aux, m, hk, hm, hmatch, hout, hshape⟩ := pgp_decrypter_main_ok L fs out h
    rw [encoder_main_eq_decrypter_main_aux, hshape]
    refine ⟨?_, ?_, ?_, ⟨m.message, ?_⟩⟩ <;>
      simp [isKeyLoad, isMsgAcquire, isCryptOp, isOutput, List.filter,
        encoder_pgp_msg_file, decrypter_pgp_msg_file]
  · intro h
    obtain ⟨k, aux, hk, he, hout, hshape⟩ := pgp_encrypter_main_ok L fs out h
    rw [hshape]
    refine ⟨?_, ?_, ?_,
      ⟨L.render { message := secret_msg, recipient := some k.keyId } ++ "\n", ?_⟩⟩ <;>
      simp [isKeyLoad, isMsgAcquire, isCryptOp, isOutput, List.filter]

/-- Witness for C1 at a concrete library model and filesystem on which the
decrypter and the encrypter both succeed. -/
theorem scripts_one_key_one_message_one_op_one_output_witness :
    (pgp_decrypter_main demoLib demoFS).trace.filter isKeyLoad =
      [.loadKey person_two_sec_key_file] ∧
    (pgp_encrypter_main demoLib demoFS).trace.filter isCryptOp = [.encryptOp] := by
  refine ⟨?_, ?_⟩
  · exact ((scripts_one_key_one_message_one_op_one_output demoLib demoFS
      ["hello"]).1 (by rfl)).1
  · exact ((scripts_one_key_one_message_one_op_one_output demoLib demoFS
      []).2.2 (by rfl)).2.2.1

/-- Claim C2: `decrypt` fails with `DecryptionError` exactly when the key
cannot unlock the message's session key, and returns the plaintext message
otherwise; both decrypting scripts' `main` propagate the failure as the run's
outcome. -/
theorem decrypt_error_iff_key_mismatch_and_mains_propagate
    (L : PGPLib) (k : PGPKey) (m : PGPMessage) (fs : FS) (aux : List PGPKey) :
    (keyMatches k m = false → PGPKey.decrypt k m = .error .decryption) ∧
    (keyMatches k m = true →
      PGPKey.decrypt k m = .ok { message := m.message, recipient := none }) ∧
    (L.keyFromFile fs person_two_sec_key_file = .ok (k, aux) →
     L.messageFromFile fs decrypter_pgp_msg_file = .ok m →
     keyMatches k m = false →
     (pgp_decrypter_main L fs).outcome = .error .decryption ∧
     (pgp_encoder_main L fs).outcome = .error .decryption) := by
  refine ⟨?_, ?_, ?_⟩
  · intro h; simp [PGPKey.decrypt, h]
  · intro h; simp [PGPKey.decrypt, h]
  · intro hk hm hmm
    have hdec : PGPKey.decrypt k m = .error .decryption := by
      simp [PGPKey.decrypt, hmm]
    constructor
    · simp [pgp_decrypter_main, hk, hm, hdec]
    · rw [encoder_main_eq_decrypter_main_aux]
      simp [pgp_decrypter_main, hk, hm, hdec]

/-- Witness for C2: a concrete filesystem whose message is locked to a key
other than the loaded one makes both decrypting scripts fail with
`DecryptionError`. -/
theorem decrypt_error_iff_key_mismatch_and_mains_propagate_witness :
    (pgp_decrypter_main demoLib demoWrongFS).outcome = .error .decryption ∧
    (pgp_encoder_main demoLib demoWrongFS).outcome = .error .decryption := by
  exact (decrypt_error_iff_key_mismatch_and_mains_propagate demoLib demoKey
    demoWrongMsg demoWrongFS []).2.2 (by rfl) (by rfl) (by rfl)

/-- Claim C3: `encrypt` fails with `EncryptionError` if and only if the key
lacks an encryption-capable subkey, and otherwise returns the ciphertext
locked to the key; the encrypter script's `main` propagates the failure. -/
theorem encrypt_error_iff_no_encryption_subkey_and_main_propagates
    (L : PGPLib) (k : PGPKey) (m : PGPMessage) (fs : FS) (aux : List PGPKey) :
    (PGPKey.encrypt k m = .error .encryption ↔ k.hasEncryptionSubkey = false) ∧
    (k.hasEncryptionSubkey = true →
      PGPKey.encrypt k m = .ok { message := m.message, recipient := some k.keyId }) ∧
    (L.keyFromFile fs public_key_file = .ok (k, aux) →
     k.hasEncryptionSubkey = false →
     (pgp_encrypter_main L fs).outcome = .error .encryption) := by
  refine ⟨?_, ?_, ?_⟩
  · cases he : k.hasEncryptionSubkey <;> simp [PGPKey.encrypt, he]
  · intro h; simp [PGPKey.encrypt, h]
  · intro hk he
    have henc : PGPKey.encrypt k (PGPMessage.new secret_msg) = .error .encryption := by
      simp [PGPKey.encrypt, he]
    simp [pgp_encrypter_main, hk, henc]

/-- Witness for C3: under a library model whose key file parses to a key with
no encryption-capable subkey, the encrypter fails with `EncryptionError`. -/
theorem encrypt_error_iff_no_encryption_subkey_and_main_propagates_witness :
    (pgp_encrypter_main demoNoEncLib demoFS).outcome = .error .encryption := by
  exact (encrypt_error_iff_no_encryption_subkey_and_main_propagates demoNoEncLib
    demoNoEncKey (PGPMessage.new secret_msg) demoFS []).2.2 (by rfl) (by rfl)

/-- Claim C4: for every path whose file exists, `PGPKey.from_file` fails with
`KeyFormatError` exactly when the content is malformed as a key, and returns
the parsed key pair on well-formed content. -/
theorem loadKey_keyFormat_iff_malformed
    (L : PGPLib) (fs : FS) (path c : String) (h : fsRead fs path = some c) :
    (L.keyFromFile fs path = .error .keyFormat ↔ L.parseKey c = none) ∧
    (∀ kr, L.parseKey c = some kr → L.keyFromFile fs path = .ok kr) := by
  constructor
  · cases hp : L.parseKey c <;> simp [PGPLib.keyFromFile, h, hp]
  · intro kr hp
    simp [PGPLib.keyFromFile, h, hp]

/-- Witness for C4: a concrete filesystem whose key file holds content the
model rejects makes `keyFromFile` fail with `KeyFormatError`. -/
theorem loadKey_keyFormat_iff_malformed_witness :
    demoLib.keyFromFile demoBadKeyFS person_two_sec_key_file =
      .error .keyFormat := by
  exact (loadKey_keyFormat_iff_malformed demoLib demoBadKeyFS
    person_two_sec_key_file "garbage" (by rfl)).1.mpr (by rfl)

/-- Claim C5: for every path whose file exists, `PGPMessage.from_file` fails
with `MessageFormatError` exactly when the content is malformed as a message,
and returns the parsed message on well-formed content. -/
theorem loadMessage_messageFormat_iff_malformed
    (L : PGPLib) (fs : FS) (path c : String) (h : fsRead fs path = some c) :
    (L.messageFromFile fs path = .error .messageFormat ↔ L.parseMessage c = none) ∧
    (∀ m, L.parseMessage c = some m → L.messageFromFile fs path = .ok m) := by
  constructor
  · cases hp : L.parseMessage c <;> simp [PGPLib.messageFromFile, h, hp]
  · intro m hp
    simp [PGPLib.messageFromFile, h, hp]

/-- Witness for C5: a concrete filesystem whose message file holds content
the model rejects makes `messageFromFile` fail with `MessageFormatError`. -/
theorem loadMessage_messageFormat_iff_malformed_witness :
    demoLib.messageFromFile demoBadMsgFS decrypter_pgp_msg_file =
      .error .messageFormat := by
  exact (loadMessage_messageFormat_iff_malformed demoLib demoBadMsgFS
    decrypter_pgp_msg_file "garbage" (by rfl)).1.mpr (by rfl)

/-- Claim C6: each script's `main` is a straight-line program whose calls
into the cryptography library are exactly three, in a fixed order, and its
observable behaviour (outcome and trace) is fully determined by the contents
of its fixed input files. -/
theorem mains_three_lib_calls_and_input_determined
    (L : PGPLib) (fs fs' : FS) (out : List String) :
    ((pgp_decrypter_main L fs).outcome = .ok out →
      (pgp_decrypter_main L fs).trace.filter isLibCall =
        [.loadKey person_two_sec_key_file, .loadMessage decrypter_pgp_msg_file,
         .decryptOp]) ∧
    ((pgp_encoder_main L fs).outcome = .ok out →
      (pgp_encoder_main L fs).trace.filter isLibCall =
        [.loadKey person_two_sec_key_file, .loadMessage encoder_pgp_msg_file,
         .decryptOp]) ∧
    ((pgp_encrypter_main L fs).outcome = .ok out →
      (pgp_encrypter_main L fs).trace.filter isLibCall =
        [.loadKey public_key_file, .newMessage secret_msg, .encryptOp]) ∧
    (fsRead fs person_two_sec_key_file = fsRead fs' person_two_sec_key_file →
     fsRead fs decrypter_pgp_msg_file = fsRead fs' decrypter_pgp_msg_file →
     (pgp_decrypter_main L fs).outcome = (pgp_decrypter_main L fs').outcome ∧
     (pgp_decrypter_main L fs).trace = (pgp_decrypter_main L fs').trace ∧
     (pgp_encoder_main L fs).outcome = (pgp_encoder_main L fs').outcome ∧
     (pgp_encoder_main L fs).trace = (pgp_encoder_main L fs').trace) ∧
    (fsRead fs public_key_file = fsRead fs' public_key_file →
     (pgp_encrypter_main L fs).outcome = (pgp_encrypter_main L fs').outcome ∧
     (pgp_encrypter_main L fs).trace = (pgp_encrypter_main L fs').trace) := by
  have hdet : fsRead fs person_two_sec_key_file = fsRead fs' person_two_sec_key_file →
      fsRead fs decrypter_pgp_msg_file = fsRead fs' decrypter_pgp_msg_file →
      (pgp_decrypter_main L fs).outcome = (pgp_decrypter_main L fs').outcome ∧
      (pgp_decrypter_main L fs).trace = (pgp_decrypter_main L fs').trace := by
    intro h1 h2
    have hk := keyFromFile_ext L fs fs' person_two_sec_key_file h1
    have hm := messageFromFile_ext L fs fs' decrypter_pgp_msg_file h2
    cases hkc : L.keyFromFile fs' person_two_sec_key_file with
    | error e =>
      constructor <;> simp [pgp_decrypter_main, hk.trans hkc, hkc]
    | ok kr =>
      obtain ⟨k, aux⟩ := kr
      cases hmc : L.messageFromFile fs' decrypter_pgp_msg_file with
      | error e =>
        constructor <;>
          simp [pgp_decrypter_main, hk.trans hkc, hkc, hm.trans hmc, hmc]
      | ok cm =>
        cases hd : PGPKey.decrypt k cm <;> constructor <;>
          simp [pgp_decrypter_main, hk.trans hkc, hkc, hm.trans hmc, hmc, hd]
  refine ⟨?_, ?_, ?_, ?_, ?_⟩
  · intro h
    obtain ⟨k, aux, m, hk, hm, hmatch, hout, hshape⟩ := pgp_decrypter_main_ok L fs out h
    rw [hshape]
    simp [isLibCall, List.filter]
  · intro h
    rw [encoder_main_eq_decrypter_main_aux] at h
    obtain ⟨k, aux, m, hk, hm, hmatch, hout, hshape⟩ := pgp_decrypter_main_ok L fs out h
    rw [encoder_main_eq_decrypter_main_aux, hshape]
    simp [isLibCall, List.filter, encoder_pgp_msg_file, decrypter_pgp_msg_file]
  · intro h
    obtain ⟨k, aux, hk, he, hout, hshape⟩ := pgp_encrypter_main_ok L fs out h
    rw [hshape]
    simp [isLibCall, List.filter]
  · intro h1 h2
    refine ⟨(hdet h1 h2).1, (hdet h1 h2).2, ?_, ?_⟩
    · rw [encoder_main_eq_decrypter_main_aux, encoder_main_eq_decrypter_main_aux]
      exact (hdet h1 h2).1
    · rw [encoder_main_eq_decrypter_main_aux, encoder_main_eq_decrypter_main_aux]
      exact (hdet h1 h2).2
  · intro h
    have hk := keyFromFile_ext L fs fs' public_key_file h
    cases hkc : L.keyFromFile fs' public_key_file with
    | error e =>
      constructor <;> simp [pgp_encrypter_main, hk.trans hkc, hkc]
    | ok kr =>
      obtain ⟨k, aux⟩ := kr
      cases he : PGPKey.encrypt k (PGPMessage.new secret_msg) <;> constructor <;>
        simp [pgp_encrypter_main, hk.trans hkc, hkc, he]

/-- Witness for C6 at the concrete model: the decrypter's successful run
makes exactly the three library calls, and its outcome is unchanged when the
filesystem differs only in an unrelated file. -/
theorem mains_three_lib_calls_and_input_determined_witness :
    (pgp_decrypter_main demoLib demoFS).trace.filter isLibCall =
      [.loadKey person_two_sec_key_file, .loadMessage decrypter_pgp_msg_file,
       .decryptOp] ∧
    (pgp_decrypter_main demoLib demoFS).outcome =
      (pgp_decrypter_main demoLib demoFS2).outcome := by
  refine ⟨?_, ?_⟩
  · exact (mains_three_lib_calls_and_input_determined demoLib demoFS demoFS2
      ["hello"]).1 (by rfl)
  · exact ((mains_three_lib_calls_and_input_determined demoLib demoFS demoFS2
      ["hello"]).2.2.2.1 (by rfl) (by rfl)).1

/-- Claim C7: no execution of the encoder script ever performs the
HTTP-transported encrypted-token workflow: no run writes any file (in
particular no `ep.pgp`), no run loads a message from `ep.pgp` or a key from
`private.key`, and the message file actually read is
`p1_armored_message.txt`, not `ep.pgp`. -/
theorem pgp_decrypter_main_fs_eq (L : PGPLib) (fs : FS) :
    (pgp_decrypter_main L fs).fs = fs := by
  cases hk : L.keyFromFile fs person_two_sec_key_file with
  | error e => simp [pgp_decrypter_main, hk]
  | ok kr =>
    obtain ⟨k, aux⟩ := kr
    cases hm : L.messageFromFile fs decrypter_pgp_msg_file with
    | error e => simp [pgp_decrypter_main, hk, hm]
    | ok cm =>
      cases hd : PGPKey.decrypt k cm <;> simp [pgp_decrypter_main, hk, hm, hd]

theorem pgp_decrypter_main_trace_cases (L : PGPLib) (fs : FS) :
    ∀ e ∈ (pgp_decrypter_main L fs).trace,
      e = .loadKey person_two_sec_key_file ∨
      e = .loadMessage decrypter_pgp_msg_file ∨
      e = .decryptOp ∨ ∃ s, e = .printOut s := by
  intro e he
  cases hk : L.keyFromFile fs person_two_sec_key_file with
  | error e2 =>
    simp [pgp_decrypter_main, hk] at he
    exact Or.inl he
  | ok kr =>
    obtain ⟨k, aux⟩ := kr
    cases hm : L.messageFromFile fs decrypter_pgp_msg_file with
    | error e2 =>
      simp [pgp_decrypter_main, hk, hm] at he
      rcases he with h | h
      · exact Or.inl h
      · exact Or.inr (Or.inl h)
    | ok cm =>
      cases hd : PGPKey.decrypt k cm with
      | error e2 =>
        simp [pgp_decrypter_main, hk, hm, hd] at he
        rcases he with h | h | h
        · exact Or.inl h
        · exact Or.inr (Or.inl h)
        · exact Or.inr (Or.inr (Or.inl h))
      | ok m =>
        simp [pgp_decrypter_main, hk, hm, hd] at he
        rcases he with h | h | h | h
        · exact Or.inl h
        · exact Or.inr (Or.inl h)
        · exact Or.inr (Or.inr (Or.inl h))
        · exact Or.inr (Or.inr (Or.inr ⟨m.message, h⟩))

theorem encoder_token_workflow_unreachable (L : PGPLib) (fs : FS) :
    (pgp_encoder_main L fs).fs = fs ∧
    (∀ p c, Event.writeFile p c ∉ (pgp_encoder_main L fs).trace) ∧
    Event.loadMessage "ep.pgp" ∉ (pgp_encoder_main L fs).trace ∧
    Event.loadKey "private.key" ∉ (pgp_encoder_main L fs).trace ∧
    encoder_pgp_msg_file ≠ "ep.pgp" := by
  rw [encoder_main_eq_decrypter_main_aux]
  refine ⟨pgp_decrypter_main_fs_eq L fs, ?_, ?_, ?_, by decide⟩
  · intro p c hmem
    rcases pgp_decrypter_main_trace_cases L fs _ hmem with h | h | h | ⟨s, h⟩ <;>
      simp at h
  · intro hmem
    rcases pgp_decrypter_main_trace_cases L fs _ hmem with h | h | h | ⟨s, h⟩
    · exact absurd h (by decide)
    · exact absurd h (by decide)
    · exact absurd h (by decide)
    · exact absurd h (by simp)
  · intro hmem
    rcases pgp_decrypter_main_trace_cases L fs _ hmem with h | h | h | ⟨s, h⟩
    · exact absurd h (by decide)
    · exact absurd h (by decide)
    · exact absurd h (by decide)
    · exact absurd h (by simp)

/-- Claim C8: the `main` functions of `src/pgp_encoder.py` and
`src/keys_from_files/pgp_decrypter.py` are behaviourally equivalent: on every
library model and filesystem (in particular, identical contents of the
secret-key file and the armored-message file) they produce identical run
results, printing the same decrypted message. -/
theorem encoder_main_equals_decrypter_main (L : PGPLib) (fs : FS) :
    pgp_encoder_main L fs = pgp_decrypter_main L fs := rfl

/-- Claim C9: a successful run of the encrypter modifies exactly one file,
`encrypted_message.txt`, replacing any previous content with the armored
ciphertext followed by a newline and leaving every other path untouched; the
two decrypting scripts never write a file and produce output only on
standard output. -/
theorem encrypter_writes_one_file_decrypters_write_none
    (L : PGPLib) (fs : FS) (out : List String) :
    ((pgp_encrypter_main L fs).outcome = .ok out →
      ∃ content,
        (pgp_encrypter_main L fs).fs = fsWrite fs encrypted_msg_file content ∧
        fsRead (pgp_encrypter_main L fs).fs encrypted_msg_file = some content ∧
        (∀ p, p ≠ encrypted_msg_file →
          fsRead (pgp_encrypter_main L fs).fs p = fsRead fs p) ∧
        (∃ armored, content = L.render armored ++ "\n")) ∧
    (pgp_decrypter_main L fs).fs = fs ∧
    (pgp_encoder_main L fs).fs = fs ∧
    (∀ p c, Event.writeFile p c ∉ (pgp_decrypter_main L fs).trace) ∧
    (∀ p c, Event.writeFile p c ∉ (pgp_encoder_main L fs).trace) ∧
    ((pgp_decrypter_main L fs).outcome = .ok out →
      ∃ m, out = [m] ∧ Event.printOut m ∈ (pgp_decrypter_main L fs).trace) := by
  have hnowrite : ∀ p c, Event.writeFile p c ∉ (pgp_decrypter_main L fs).trace := by
    intro p c hmem
    rcases pgp_decrypter_main_trace_cases L fs _ hmem with h | h | h | ⟨s, h⟩ <;>
      simp at h
  refine ⟨?_, pgp_decrypter_main_fs_eq L fs, ?_, hnowrite, ?_, ?_⟩
  · intro h
    obtain ⟨k, aux, hk, he, hout, hshape⟩ := pgp_encrypter_main_ok L fs out h
    refine ⟨L.render { message := secret_msg, recipient := some k.keyId } ++ "\n",
      ?_, ?_, ?_, ⟨{ message := secret_msg, recipient := some k.keyId }, rfl⟩⟩
    · rw [hshape]
    · rw [hshape]
      exact fsRead_fsWrite_self fs encrypted_msg_file _
    · intro p hp
      rw [hshape]
      exact fsRead_fsWrite_other fs encrypted_msg_file p _ hp
  · rw [encoder_main_eq_decrypter_main_aux]
    exact pgp_decrypter_main_fs_eq L fs
  · rw [encoder_main_eq_decrypter_main_aux]
    exact hnowrite
  · intro h
    obtain ⟨k, aux, m, hk, hm, hmatch, hout, hshape⟩ := pgp_decrypter_main_ok L fs out h
    refine ⟨m.message, hout, ?_⟩
    rw [hshape]
    simp

/-- Witness for C9: on the concrete model the encrypter leaves the key file
untouched, and the decrypter leaves the filesystem unchanged. -/
theorem encrypter_writes_one_file_decrypters_write_none_witness :
    fsRead (pgp_encrypter_main demoLib demoFS).fs person_two_sec_key_file =
      fsRead demoFS person_two_sec_key_file ∧
    (pgp_decrypter_main demoLib demoFS).fs = demoFS := by
  have h := encrypter_writes_one_file_decrypters_write_none demoLib demoFS []
  obtain ⟨content, _, _, h3, _⟩ := h.1 (by rfl)
  exact ⟨h3 person_two_sec_key_file (by decide), h.2.1⟩

/-- Claim C10: the decrypting scripts are deterministic — two runs over
filesystems agreeing on the secret-key file and the armored-message file
produce the same outcome — and each run uses only the first component of
`PGPKey.from_file`'s return value: library models whose key parsing differs
only in that discarded second component produce identical runs. -/
theorem decrypter_deterministic_and_discards_second_component
    (L L2 : PGPLib) (fs fs' : FS) :
    (fsRead fs person_two_sec_key_file = fsRead fs' person_two_sec_key_file →
     fsRead fs decrypter_pgp_msg_file = fsRead fs' decrypter_pgp_msg_file →
     (pgp_decrypter_main L fs).outcome = (pgp_decrypter_main L fs').outcome ∧
     (pgp_encoder_main L fs).outcome = (pgp_encoder_main L fs').outcome) ∧
    ((∀ c, (L.parseKey c).map Prod.fst = (L2.parseKey c).map Prod.fst) →
     L.parseMessage = L2.parseMessage →
     pgp_decrypter_main L fs = pgp_decrypter_main L2 fs ∧
     pgp_encoder_main L fs = pgp_encoder_main L2 fs) := by
  constructor
  · intro h1 h2
    have hk := keyFromFile_ext L fs fs' person_two_sec_key_file h1
    have hm := messageFromFile_ext L fs fs' decrypter_pgp_msg_file h2
    have hout : (pgp_decrypter_main L fs).outcome = (pgp_decrypter_main L fs').outcome := by
      cases hkc : L.keyFromFile fs' person_two_sec_key_file with
      | error e => simp [pgp_decrypter_main, hk.trans hkc, hkc]
      | ok kr =>
        obtain ⟨k, aux⟩ := kr
        cases hmc : L.messageFromFile fs' decrypter_pgp_msg_file with
        | error e => simp [pgp_decrypter_main, hk.trans hkc, hkc, hm.trans hmc, hmc]
        | ok cm =>
          cases hd : PGPKey.decrypt k cm <;>
            simp [pgp_decrypter_main, hk.trans hkc, hkc, hm.trans hmc, hmc, hd]
    refine ⟨hout, ?_⟩
    rw [encoder_main_eq_decrypter_main_aux, encoder_main_eq_decrypter_main_aux]
    exact hout
  · intro hpk hpm
    have hmf : L.messageFromFile fs decrypter_pgp_msg_file =
        L2.messageFromFile fs decrypter_pgp_msg_file := by
      simp [PGPLib.messageFromFile, hpm]
    have hmain : pgp_decrypter_main L fs = pgp_decrypter_main L2 fs := by
      cases hr : fsRead fs person_two_sec_key_file with
      | none =>
        have hk1 : L.keyFromFile fs person_two_sec_key_file = .error .fileNotFound := by
          simp [PGPLib.keyFromFile, hr]
        have hk2 : L2.keyFromFile fs person_two_sec_key_file = .error .fileNotFound := by
          simp [PGPLib.keyFromFile, hr]
        simp [pgp_decrypter_main, hk1, hk2]
      | some c =>
        have hc := hpk c
        cases hp1 : L.parseKey c with
        | none =>
          cases hp2 : L2.parseKey c with
          | none =>
            have hk1 : L.keyFromFile fs person_two_sec_key_file = .error .keyFormat := by
              simp [PGPLib.keyFromFile, hr, hp1]
            have hk2 : L2.keyFromFile fs person_two_sec_key_file = .error .keyFormat := by
              simp [PGPLib.keyFromFile, hr, hp2]
            simp [pgp_decrypter_main, hk1, hk2]
          | some kr2 =>
            rw [hp1, hp2] at hc
            simp at hc
        | some kr1 =>
          cases hp2 : L2.parseKey c with
          | none =>
            rw [hp1, hp2] at hc
            simp at hc
          | some kr2 =>
            obtain ⟨k1, a1⟩ := kr1
            obtain ⟨k2, a2⟩ := kr2
            rw [hp1, hp2] at hc
            simp at hc
            have hk1 : L.keyFromFile fs person_two_sec_key_file = .ok (k1, a1) := by
              simp [PGPLib.keyFromFile, hr, hp1]
            have hk2 : L2.keyFromFile fs person_two_sec_key_file = .ok (k2, a2) := by
              simp [PGPLib.keyFromFile, hr, hp2]
            subst hc
            cases hmc : L2.messageFromFile fs decrypter_pgp_msg_file with
            | error e =>
              simp [pgp_decrypter_main, hk1, hk2, hmf.trans hmc, hmc]
            | ok cm =>
              cases hd : PGPKey.decrypt k1 cm <;>
                simp [pgp_decrypter_main, hk1, hk2, hmf.trans hmc, hmc, hd]
    refine ⟨hmain, ?_⟩
    rw [encoder_main_eq_decrypter_main_aux, encoder_main_eq_decrypter_main_aux]
    exact hmain

/-- Witness for C10: the decrypter's outcome is unchanged by an unrelated
extra file and by a library model differing only in the discarded second
component of key parsing. -/
theorem decrypter_deterministic_and_discards_second_component_witness :
    (pgp_decrypter_main demoLib demoFS).outcome =
      (pgp_decrypter_main demoLib demoFS2).outcome ∧
    pgp_decrypter_main demoLib demoFS = pgp_decrypter_main demoLibAux demoFS := by
  constructor
  · exact ((decrypter_deterministic_and_discards_second_component demoLib demoLibAux
      demoFS demoFS2).1 (by rfl) (by rfl)).1
  · exact ((decrypter_deterministic_and_discards_second_component demoLib demoLibAux
      demoFS demoFS2).2
      (by
        intro c
        by_cases h : c = "KEY" <;> simp [demoLib, demoLibAux, h])
      (by rfl)).1
